import Mathlib

/-!
Verification of the LGS-PaintBoard fake server (`server.mjs`, `config.mjs`).

The development shallowly embeds the connection admission and binary
protocol engine of the server: the raster store (`setPixel`), the
per-message frame-processing loop (`processGo` / `processBytes`), the
upgrade-time admission counting (`upgradeAdmit`), the heartbeat tick
(`heartbeatTick`), the per-second rate-sample tick (`rateSampleTick`)
and the broadcast fan-out (`broadcastTo`).

Machine integers are modelled as `Nat` / `Int` with explicit `% 256`
(Uint8Array byte coercion) and `% 2 ^ 32` where the source masks to
32 bits.  `Date.now()` is passed as an explicit `now : Int` parameter,
held fixed for one synchronous handler invocation.  A read past the end
of a `Buffer` (which throws `ERR_OUT_OF_RANGE` in Node) is modelled by
`Option`-returning reads; an uncaught throw is recorded in the
`crashed` flag of the handler result.
-/

namespace PaintBoard

/-- Board width: `config.board.width` default (config.mjs). -/
def WIDTH : Nat := 1000

/-- Board height: `config.board.height` default (config.mjs). -/
def HEIGHT : Nat := 600

/-- Channels per pixel: `config.board.channels` default (config.mjs). -/
def CHANNELS : Nat := 3

/-- `BOARD_SIZE = WIDTH * HEIGHT * CHANNELS` (server.mjs line 28). -/
def BOARD_SIZE : Nat := WIDTH * HEIGHT * CHANNELS

/-- The initial board: `Buffer.alloc(BOARD_SIZE, 0xff)` (server.mjs line 29). -/
def initialBoard : Nat → Nat := fun _ => 0xff

/-- One byte store into the board buffer.  Node `Buffer` index assignment
is a `Uint8Array` store: out-of-range indices are silently ignored and the
value is coerced to one byte. -/
def bufWrite (board : Nat → Nat) (i : Nat) (v : Nat) : Nat → Nat :=
  if i < BOARD_SIZE then (fun j => if j = i then v % 256 else board j) else board

/-- `setPixel(x, y, r, g, b)` (server.mjs lines 33-40): bounds check, then
write the three channel bytes at `(y*WIDTH + x)*CHANNELS`. -/
def setPixel (board : Nat → Nat) (x y : Int) (r g b : Nat) : (Nat → Nat) × Bool :=
  if x < 0 ∨ (WIDTH : Int) ≤ x ∨ y < 0 ∨ (HEIGHT : Int) ≤ y then (board, false)
  else
    let idx := (y.toNat * WIDTH + x.toNat) * CHANNELS
    (bufWrite (bufWrite (bufWrite board idx r) (idx + 1) g) (idx + 2) b, true)

/-- Little-endian 16-bit encoding (`writeUInt16LE`). -/
def le16 (v : Nat) : List Nat := [v % 256, v / 256 % 256]

/-- Little-endian 32-bit encoding (`writeUInt32LE`). -/
def le32 (v : Nat) : List Nat :=
  [v % 256, v / 256 % 256, v / 65536 % 256, v / 16777216 % 256]

/-- `readUInt8` at an offset; `none` models the Node range throw. -/
def readU8 (l : List Nat) (i : Nat) : Option Nat := l.get? i

/-- `readUInt16LE` at an offset. -/
def readU16LE (l : List Nat) (i : Nat) : Option Nat := do
  let a ← l.get? i
  let b ← l.get? (i + 1)
  pure (a + 256 * b)

/-- `readUInt32LE` at an offset. -/
def readU32LE (l : List Nat) (i : Nat) : Option Nat := do
  let a ← l.get? i
  let b ← l.get? (i + 1)
  let c ← l.get? (i + 2)
  let d ← l.get? (i + 3)
  pure (a + 256 * b + 65536 * c + 16777216 * d)

/-- Token configuration (config.mjs `TOKEN_CONFIG`): cooldown in ms and the
`check` toggle.  Note: `server.mjs` reads `TOKEN_CFG = config.token` but only
ever uses `cooldownMs`; the `check` flag is never consulted anywhere. -/
structure TokenCfg where
  cooldownMs : Int
  check : Bool
deriving DecidableEq

/-- WebSocket configuration (config.mjs `WEBSOCKET_CONFIG`), fields used by
the protocol engine. -/
structure WsCfg where
  maxReadWritePerIP : Nat
  maxReadOnlyPerIP : Nat
  maxWriteOnlyPerIP : Nat
  packetsPerSecond : Nat
  pingInterval : Int
  pingTimeout : Int
deriving DecidableEq

/-- Defaults from config.mjs. -/
def defaultTokenCfg : TokenCfg := { cooldownMs := 1, check := false }

/-- Defaults from config.mjs. -/
def defaultWsCfg : WsCfg :=
  { maxReadWritePerIP := 3, maxReadOnlyPerIP := 50, maxWriteOnlyPerIP := 5,
    packetsPerSecond := 256, pingInterval := 30000, pingTimeout := 10000 }

/-- Per-connection metadata `ws._meta` (server.mjs lines 134-142).
`uidCooldown` is modelled as a total map defaulting to 0, matching
`meta.uidCooldown.get(uid) || 0`. -/
structure ConnMeta where
  readonly : Bool
  writeonly : Bool
  packets : List Int
  uidCooldown : Nat → Int
  lastPong : Int
  lastPing : Int

/-- A fresh connection's metadata at admission time `t`. -/
def freshMeta (readonly writeonly : Bool) (t : Int) : ConnMeta :=
  { readonly := readonly, writeonly := writeonly, packets := [],
    uidCooldown := fun _ => 0, lastPong := t, lastPing := t }

/-- `sendResult(ws, id, code)` frame (server.mjs lines 186-192):
`0xff` + id(4, LE) + code(1). -/
def sendResultFrame (id code : Nat) : List Nat := 0xff :: (le32 id ++ [code])

/-- `broadcastDraw` frame (server.mjs lines 164-171):
`0xfa` + x(2, LE) + y(2, LE) + r + g + b. -/
def drawBroadcastFrame (x y r g b : Nat) : List Nat :=
  0xfa :: (le16 x ++ le16 y ++ [r, g, b])

/-- The 20-byte echo frame built by the `0xF0` handler
(server.mjs lines 246-255). -/
def timedEchoFrame (id clientTs serverTs x y r g b : Nat) : List Nat :=
  0xF0 :: (le32 id ++ le32 clientTs ++ le32 serverTs ++ le16 x ++ le16 y ++ [r, g, b])

/-- The field reads of the `0xF0` handler (server.mjs lines 238-244), on the
bytes remaining after the opcode: id(4) clientTs(4) x(2) y(2) r g b.
`none` models a read throwing past the end of the buffer (the reads have no
observable effect besides advancing the offset, so sequencing them in one
`Option` computation is faithful). -/
def readTimedDrawPayload (rest : List Nat) :
    Option (Nat × Nat × Nat × Nat × Nat × Nat × Nat) := do
  let id ← readU32LE rest 0
  let clientTs ← readU32LE rest 4
  let x ← readU16LE rest 8
  let y ← readU16LE rest 10
  let r ← readU8 rest 12
  let g ← readU8 rest 13
  let b ← readU8 rest 14
  pure (id, clientTs, x, y, r, g, b)

/-- The field reads of the `DRAW_REQUEST` handler (server.mjs lines 286-298),
on the bytes remaining after the opcode: x(2) y(2) r g b uid(3 bytes,
little-endian composite, line 292) token(16, consumed but unused by the
caller beyond its hex string) id(4, at offset 26). -/
def readDrawPayload (rest : List Nat) :
    Option (Nat × Nat × Nat × Nat × Nat × Nat × Nat) := do
  let x ← readU16LE rest 0
  let y ← readU16LE rest 2
  let r ← readU8 rest 4
  let g ← readU8 rest 5
  let b ← readU8 rest 6
  let u0 ← readU8 rest 7
  let u1 ← readU8 rest 8
  let u2 ← readU8 rest 9
  let id ← readU32LE rest 26
  pure (x, y, r, g, b, u0 + 256 * u1 + 65536 * u2, id)

/-- Result of running `ws.on('message')` on one inbound transport message:
the board afterwards, the connection metadata afterwards, the shared
`paintCount` afterwards, the `DRAW_RESULT`-style frames sent to the
originating connection, the frames handed to the broadcast loop, the
close call if one was made (code, reason), and whether an uncaught
buffer-range throw escaped the handler. -/
structure MsgResult where
  board : Nat → Nat
  meta : ConnMeta
  paintCount : Nat
  sent : List (List Nat)
  broadcasts : List (List Nat)
  closed : Option (Nat × String)
  crashed : Bool

/-- The `while (offset < buf.length)` loop of `ws.on('message')`
(server.mjs lines 219-325), recursing on the bytes remaining after the
already-consumed prefix.  `fuel` bounds the number of iterations; every
iteration consumes at least one byte, so `fuel = bytes.length` suffices
(see `processBytes`).  `tokens` is the `tokens.db` content
(`getTokenStmt.get`), modelled as a total lookup (the catch branch for a
throwing lookup, result code 0xed, is therefore not reachable in the
model).  `now` stands for `Date.now()` during this invocation. -/
def processGo (tok : TokenCfg) (ws : WsCfg) (tokens : Nat → Option String) (now : Int) :
    Nat → (Nat → Nat) → ConnMeta → Nat → List Nat → MsgResult
  | 0, board, meta, pc, _ =>
    ⟨board, meta, pc, [], [], none, false⟩
  | _ + 1, board, meta, pc, [] =>
    ⟨board, meta, pc, [], [], none, false⟩
  | fuel + 1, board, meta, pc, t :: rest =>
    if t = 0xfb then
      -- HEARTBEAT_ACK: meta.lastPong = Date.now(); continue
      processGo tok ws tokens now fuel board { meta with lastPong := now } pc rest
    else if t = 0xF0 then
      -- TIMED_DRAW_REQUEST: REQUIRED_LEN = 4 + 4 + 2 + 2 + 1 + 1 + 1
      if rest.length < 4 + 4 + 2 + 2 + 1 + 1 + 1 then
        ⟨board, meta, pc, [], [], some (1002, "Protocol violation: 0xF0 packet too short"), false⟩
      else
        match readTimedDrawPayload rest with
        | some (id, clientTs, x, y, r, g, b) =>
          let serverTs := now.toNat % 2 ^ 32
          let out := timedEchoFrame id clientTs serverTs x y r g b
          let res := processGo tok ws tokens now fuel board meta (pc + 1) (rest.drop 15)
          { res with broadcasts := out :: res.broadcasts }
        | none =>
          -- try/catch around the 0xF0 handler (server.mjs lines 268-272)
          ⟨board, meta, pc, [], [], some (1002, "Protocol error while processing 0xF0"), false⟩
    else if t ≠ 0xfe then
      ⟨board, meta, pc, [], [], some (1002, "Protocol violation: unknown packet type"), false⟩
    else
      -- DRAW_REQUEST: sliding-window rate limit first
      let pk := meta.packets.filter (fun tm => now - tm < 1000)
      if ws.packetsPerSecond < ((pk.filter (fun tm => now - tm < 1000)).length : Nat) then
        ⟨board, { meta with packets := pk }, pc, [], [],
          some (1008, "IP connection limit exceeded"), false⟩
      else
        let meta1 := { meta with packets := pk ++ [now] }
        if rest.length < 29 then
          ⟨board, meta1, pc, [], [],
            some (1002, "Protocol violation: unknown packet type"), false⟩
        else
          match readDrawPayload rest with
          | some (x, y, r, g, b, uid, id) =>
            let tokenHex := (rest.drop 10).take 16
            let dbToken := tokens uid
            let lastTime := meta1.uidCooldown uid
            if now - lastTime < tok.cooldownMs then
              let res := processGo tok ws tokens now fuel board meta1 pc (rest.drop 30)
              { res with sent := sendResultFrame id 0xee :: res.sent }
            else
              let meta2 := { meta1 with
                uidCooldown := fun u => if u = uid then now else meta1.uidCooldown u }
              let sp := setPixel board (x : Int) (y : Int) r g b
              if sp.2 then
                let res := processGo tok ws tokens now fuel sp.1 meta2 (pc + 1) (rest.drop 30)
                { res with
                  broadcasts := drawBroadcastFrame x y r g b :: res.broadcasts,
                  sent := sendResultFrame id 0xef :: res.sent }
              else
                let res := processGo tok ws tokens now fuel board meta2 pc (rest.drop 30)
                { res with sent := sendResultFrame id 0xec :: res.sent }
          | none =>
            -- a read past the end of the buffer throws ERR_OUT_OF_RANGE,
            -- uncaught in the 0xfe path
            ⟨board, meta1, pc, [], [], none, true⟩

/-- Run the message handler on one inbound transport message. -/
def processBytes (tok : TokenCfg) (ws : WsCfg) (tokens : Nat → Option String) (now : Int)
    (board : Nat → Nat) (meta : ConnMeta) (pc : Nat) (bytes : List Nat) : MsgResult :=
  processGo tok ws tokens now bytes.length board meta pc bytes

/-- Per-IP connection counters, `ipConnCounts` entry (server.mjs line 113). -/
structure IpCounts where
  rw : Nat
  ro : Nat
  wo : Nat
deriving DecidableEq

/-- Outcome of one upgrade attempt. -/
structure AdmitResult where
  counts : IpCounts
  admitted : Bool
  warnedRW : Bool
  warnedRO : Bool
  warnedWO : Bool
deriving DecidableEq

/-- The admission logic of `wsServer.on('upgrade')` (server.mjs lines
104-150): each ceiling breach only logs a warning (the `socket.end(...)`
rejection lines 117, 121, 125 are commented out in the source), the
matching counter is always incremented (lines 128-131) and the handshake
always proceeds to `wss.handleUpgrade`. -/
def upgradeAdmit (cfg : WsCfg) (counts : IpCounts) (readonly writeonly : Bool) : AdmitResult :=
  let warnedRW := !readonly && !writeonly && decide (cfg.maxReadWritePerIP ≤ counts.rw)
  let warnedRO := readonly && decide (cfg.maxReadOnlyPerIP ≤ counts.ro)
  let warnedWO := writeonly && decide (cfg.maxWriteOnlyPerIP ≤ counts.wo)
  let counts1 := if !readonly && !writeonly then { counts with rw := counts.rw + 1 } else counts
  let counts2 := if readonly then { counts1 with ro := counts1.ro + 1 } else counts1
  let counts3 := if writeonly then { counts2 with wo := counts2.wo + 1 } else counts2
  { counts := counts3, admitted := true,
    warnedRW := warnedRW, warnedRO := warnedRO, warnedWO := warnedWO }

/-- One tick of the `startHeartbeat` timer (server.mjs lines 200-208):
returns whether `ws.close(1001, 'Ping timeout')` was invoked on this tick
(the source condition is `meta.lastPong - meta.lastPing > timeout`), and
the metadata afterwards (a ping is then sent and `lastPing = Date.now()`,
unconditionally: the close branch does not return). -/
def heartbeatTick (timeout now : Int) (meta : ConnMeta) : Bool × ConnMeta :=
  (decide (timeout < meta.lastPong - meta.lastPing), { meta with lastPing := now })

/-- An entry of the `clients` set as seen by the broadcast loops:
its transport state (`readyState === OPEN`) and its `_meta` class flags. -/
structure Client where
  id : Nat
  isOpen : Bool
  readonly : Bool
  writeonly : Bool
deriving DecidableEq

/-- The fan-out loop shared by `broadcastDraw` (server.mjs lines 173-179),
the `0xF0` echo loop (lines 257-263) and the rate-sample loop (lines
97-99): one send per client that is open and not write-only; each send is
independent (errors are reported through a per-send callback and only
logged). -/
def broadcastTo (clients : List Client) (frame : List Nat) : List (Nat × List Nat) :=
  (clients.filter (fun c => c.isOpen && !c.writeonly)).map (fun c => (c.id, frame))

/-- `sendResult` delivers only to the originating connection. -/
def sendDirect (c : Client) (frame : List Nat) : List (Nat × List Nat) :=
  [(c.id, frame)]

/-- One tick of the one-second rate-sample interval (server.mjs lines
92-101): broadcast `0xFE` + paintCount(4, LE) to every open non-write-only
client, then reset `paintCount` to 0. -/
def rateSampleTick (clients : List Client) (pc : Nat) : List (Nat × List Nat) × Nat :=
  (broadcastTo clients (0xFE :: le32 pc), 0)

/-- Overwrite the `readonly` flag in a handler result's metadata (used to
state that frame handling never depends on that flag). -/
def withReadonlyFlag (b : Bool) (r : MsgResult) : MsgResult :=
  { r with meta := { r.meta with readonly := b } }

/-- Recognizer for `DRAW_BROADCAST` frames (leading byte 0xfa). -/
def isDrawBroadcast (f : List Nat) : Bool := f.head? == some 0xfa

/-- Recognizer for `0xF0` echo frames (leading byte 0xF0). -/
def isTimedEcho (f : List Nat) : Bool := f.head? == some 0xF0

/-- Test vector: a well-formed `DRAW_REQUEST` at (0,0) with colour
(10,20,30), identity 1, an all-zero 16-byte token and request id 7. -/
def validDrawMsg : List Nat :=
  0xfe :: ([0, 0, 0, 0, 10, 20, 30, 1, 0, 0] ++ List.replicate 16 0 ++ [7, 0, 0, 0])

/-- Test vector: a well-formed `DRAW_REQUEST` at the out-of-bounds
x = 2000 (little-endian [208, 7]), identity 1, request id 9. -/
def oobDrawMsg : List Nat :=
  0xfe :: ([208, 7, 0, 0, 1, 2, 3, 1, 0, 0] ++ List.replicate 16 0 ++ [9, 0, 0, 0])

/-- Test vector: a well-formed in-bounds `DRAW_REQUEST` at (0,0),
identity 1, request id 11. -/
def inBoundsDrawMsg : List Nat :=
  0xfe :: ([0, 0, 0, 0, 1, 2, 3, 1, 0, 0] ++ List.replicate 16 0 ++ [11, 0, 0, 0])

/-- Test vector: a well-formed `DRAW_REQUEST` at (5,5) with colour
(255,0,0), identity 42, request id 3 (the broadcast scenario draw). -/
def drawMsgA : List Nat :=
  0xfe :: ([5, 0, 5, 0, 255, 0, 0, 42, 0, 0] ++ List.replicate 16 0 ++ [3, 0, 0, 0])

theorem bufWrite_lt {i : Nat} (h : i < BOARD_SIZE) (board : Nat → Nat) (v : Nat) :
    bufWrite board i v = fun j => if j = i then v % 256 else board j := by
  simp [bufWrite, h]

/-- C6: for in-bounds coordinates `setPixel` returns `true` and sets exactly
the three bytes at offset `(y*WIDTH+x)*CHANNELS` to `r`, `g`, `b`, leaving
every other byte unchanged; for any out-of-bounds (including negative)
coordinate it returns `false` and leaves the raster unmodified. -/
theorem setPixel_bounds_spec (board : Nat → Nat) (x y : Int) (r g b : Nat)
    (hr : r < 256) (hg : g < 256) (hb : b < 256) :
    (0 ≤ x → x < WIDTH → 0 ≤ y → y < HEIGHT →
      (setPixel board x y r g b).2 = true ∧
      (setPixel board x y r g b).1 ((y.toNat * WIDTH + x.toNat) * CHANNELS) = r ∧
      (setPixel board x y r g b).1 ((y.toNat * WIDTH + x.toNat) * CHANNELS + 1) = g ∧
      (setPixel board x y r g b).1 ((y.toNat * WIDTH + x.toNat) * CHANNELS + 2) = b ∧
      ∀ j, j ≠ (y.toNat * WIDTH + x.toNat) * CHANNELS →
        j ≠ (y.toNat * WIDTH + x.toNat) * CHANNELS + 1 →
        j ≠ (y.toNat * WIDTH + x.toNat) * CHANNELS + 2 →
        (setPixel board x y r g b).1 j = board j) ∧
    ((x < 0 ∨ (WIDTH : Int) ≤ x ∨ y < 0 ∨ (HEIGHT : Int) ≤ y) →
      setPixel board x y r g b = (board, false)) := by
  constructor
  · intro hx0 hx hy0 hy
    have hW : (WIDTH : Int) = 1000 := by decide
    have hH : (HEIGHT : Int) = 600 := by decide
    have hxn : x.toNat < 1000 := by omega
    have hyn : y.toNat < 600 := by omega
    have hcond : ¬ (x < 0 ∨ (WIDTH : Int) ≤ x ∨ y < 0 ∨ (HEIGHT : Int) ≤ y) := by
      rw [hW, hH]; omega
    have hidx : (y.toNat * WIDTH + x.toNat) * CHANNELS + 2 < BOARD_SIZE := by
      show (y.toNat * 1000 + x.toNat) * 3 + 2 < 1800000
      omega
    have hidx1 : (y.toNat * WIDTH + x.toNat) * CHANNELS + 1 < BOARD_SIZE := by omega
    have hidx0 : (y.toNat * WIDTH + x.toNat) * CHANNELS < BOARD_SIZE := by omega
    rw [setPixel, if_neg hcond]
    dsimp only
    rw [bufWrite_lt hidx0, bufWrite_lt hidx1, bufWrite_lt hidx]
    refine ⟨rfl, ?_, ?_, ?_, ?_⟩
    · simp [Nat.mod_eq_of_lt hr]
    · simp [Nat.mod_eq_of_lt hg]
    · simp [Nat.mod_eq_of_lt hb]
    · intro j h0 h1 h2
      simp [h0, h1, h2]
  · intro h
    rw [setPixel, if_pos h]

/-- Witness for `setPixel_bounds_spec` at the concrete draw (5,5,255,0,0)
and the out-of-bounds coordinate x = 2000. -/
theorem setPixel_bounds_spec_witness :
    (setPixel initialBoard 5 5 255 0 0).2 = true ∧
    setPixel initialBoard 2000 5 255 0 0 = (initialBoard, false) :=
  ⟨((setPixel_bounds_spec initialBoard 5 5 255 0 0 (by decide) (by decide) (by decide)).1
      (by decide) (by decide) (by decide) (by decide)).1,
   (setPixel_bounds_spec initialBoard 2000 5 255 0 0 (by decide) (by decide) (by decide)).2
      (by decide)⟩

/-- C1 (code-bug evidence): with credential checking configured on
(`check := true`) and an empty token store, a well-formed `DRAW_REQUEST`
from identity 1 is nevertheless answered with the success code 0xef, is
broadcast, and mutates the raster at (0,0): the handler fetches the stored
token (`dbToken`) but never compares it with the presented token and never
consults `TOKEN_CFG.check`, so no credential-failure path exists. -/
theorem draw_accepted_without_credential_check :
    (processBytes ⟨30000, true⟩ defaultWsCfg (fun _ => none) 1000000 initialBoard
        (freshMeta false false 0) 0 validDrawMsg).sent = [sendResultFrame 7 0xef] ∧
    (processBytes ⟨30000, true⟩ defaultWsCfg (fun _ => none) 1000000 initialBoard
        (freshMeta false false 0) 0 validDrawMsg).broadcasts =
      [drawBroadcastFrame 0 0 10 20 30] ∧
    (processBytes ⟨30000, true⟩ defaultWsCfg (fun _ => none) 1000000 initialBoard
        (freshMeta false false 0) 0 validDrawMsg).board 0 = 10 ∧
    (processBytes ⟨30000, true⟩ defaultWsCfg (fun _ => none) 1000000 initialBoard
        (freshMeta false false 0) 0 validDrawMsg).board 1 = 20 ∧
    (processBytes ⟨30000, true⟩ defaultWsCfg (fun _ => none) 1000000 initialBoard
        (freshMeta false false 0) 0 validDrawMsg).board 2 = 30 ∧
    (processBytes ⟨30000, true⟩ defaultWsCfg (fun _ => none) 1000000 initialBoard
        (freshMeta false false 0) 0 validDrawMsg).closed = none ∧
    (processBytes ⟨30000, true⟩ defaultWsCfg (fun _ => none) 1000000 initialBoard
        (freshMeta false false 0) 0 validDrawMsg).crashed = false := by
  decide

/-- C2 (code-bug evidence): the liveness condition at server.mjs line 201
is `meta.lastPong - meta.lastPing > timeout`, which is inverted.  A peer
admitted at time 0 that never sends a `HEARTBEAT_ACK` is not closed at the
tick at 30000 nor at 60000 (60 s of silence against a 10 s timeout), while
a peer whose ack arrived 15 s after the ping (`lastPong = 15000`) is
closed. -/
theorem heartbeat_silent_peer_never_closed :
    (heartbeatTick defaultWsCfg.pingTimeout 30000 (freshMeta false false 0)).1 = false ∧
    (heartbeatTick defaultWsCfg.pingTimeout 60000
        (heartbeatTick defaultWsCfg.pingTimeout 30000 (freshMeta false false 0)).2).1 = false ∧
    (10000 : Int) < 60000 -
      (heartbeatTick defaultWsCfg.pingTimeout 60000
        (heartbeatTick defaultWsCfg.pingTimeout 30000 (freshMeta false false 0)).2).2.lastPong ∧
    (heartbeatTick defaultWsCfg.pingTimeout 30000
        { freshMeta false false 0 with lastPong := 15000 }).1 = true := by
  decide

/-- C3 counterexample: with the default read-write ceiling 3 and 3 live
read-write connections from the address, the 4th attempt is still admitted
and the counter is incremented to 4 (only a warning is recorded), contrary
to the claimed rejection with an unchanged counter. -/
theorem admission_over_ceiling_admitted :
    upgradeAdmit defaultWsCfg ⟨3, 0, 0⟩ false false =
      ⟨⟨4, 0, 0⟩, true, true, false, false⟩ := by
  decide

/-- C3 amended: every admission attempt is accepted and the matching class
counter incremented; a ceiling breach only raises the corresponding
warning flag (the handshake-terminating rejection is commented out in the
source). -/
theorem upgradeAdmit_always_admits (cfg : WsCfg) (counts : IpCounts)
    (readonly writeonly : Bool) :
    (upgradeAdmit cfg counts readonly writeonly).admitted = true ∧
    (upgradeAdmit cfg counts readonly writeonly).counts.rw =
      (if !readonly && !writeonly then counts.rw + 1 else counts.rw) ∧
    (upgradeAdmit cfg counts readonly writeonly).counts.ro =
      (if readonly then counts.ro + 1 else counts.ro) ∧
    (upgradeAdmit cfg counts readonly writeonly).counts.wo =
      (if writeonly then counts.wo + 1 else counts.wo) ∧
    (upgradeAdmit cfg counts readonly writeonly).warnedRW =
      (!readonly && !writeonly && decide (cfg.maxReadWritePerIP ≤ counts.rw)) ∧
    (upgradeAdmit cfg counts readonly writeonly).warnedRO =
      (readonly && decide (cfg.maxReadOnlyPerIP ≤ counts.ro)) ∧
    (upgradeAdmit cfg counts readonly writeonly).warnedWO =
      (writeonly && decide (cfg.maxWriteOnlyPerIP ≤ counts.wo)) := by
  cases readonly <;> cases writeonly <;> simp [upgradeAdmit]

/-- C4 counterexample: with cooldown 1000 ms, an out-of-bounds draw from
identity 1 at t = 10000 is rejected with 0xec, yet it rewrites identity
1's cooldown entry from 0 to 10000; an in-bounds draw from the same
identity 500 ms later is then rejected with the cooldown code 0xee, so the
rejected draw did restart the cooldown. -/
theorem oob_draw_restarts_cooldown :
    (freshMeta false false 0).uidCooldown 1 = 0 ∧
    (processBytes ⟨1000, false⟩ defaultWsCfg (fun _ => none) 10000 initialBoard
        (freshMeta false false 0) 0 oobDrawMsg).sent = [sendResultFrame 9 0xec] ∧
    (processBytes ⟨1000, false⟩ defaultWsCfg (fun _ => none) 10000 initialBoard
        (freshMeta false false 0) 0 oobDrawMsg).meta.uidCooldown 1 = 10000 ∧
    (processBytes ⟨1000, false⟩ defaultWsCfg (fun _ => none) 10500 initialBoard
        (processBytes ⟨1000, false⟩ defaultWsCfg (fun _ => none) 10000 initialBoard
          (freshMeta false false 0) 0 oobDrawMsg).meta 0 inBoundsDrawMsg).sent =
      [sendResultFrame 11 0xee] := by
  decide

/-- C4 amended: the per-connection cooldown entry records the time of the
last draw that passed the cooldown check — recorded before the bounds
check — so an out-of-bounds rejection (0xec) restarts the identity's
cooldown, while a draw rejected by the cooldown itself (0xee) leaves the
entry unchanged. -/
theorem cooldown_recorded_before_bounds_check (tok : TokenCfg)
    (tokens : Nat → Option String) (now : Int) (cd : Nat → Int) :
    (now - cd 1 < tok.cooldownMs →
      (processBytes tok defaultWsCfg tokens now initialBoard
          ⟨false, false, [], cd, 0, 0⟩ 0 oobDrawMsg).sent = [sendResultFrame 9 0xee] ∧
      (processBytes tok defaultWsCfg tokens now initialBoard
          ⟨false, false, [], cd, 0, 0⟩ 0 oobDrawMsg).meta.uidCooldown = cd) ∧
    (tok.cooldownMs ≤ now - cd 1 →
      (processBytes tok defaultWsCfg tokens now initialBoard
          ⟨false, false, [], cd, 0, 0⟩ 0 oobDrawMsg).sent = [sendResultFrame 9 0xec] ∧
      (processBytes tok defaultWsCfg tokens now initialBoard
          ⟨false, false, [], cd, 0, 0⟩ 0 oobDrawMsg).meta.uidCooldown 1 = now ∧
      (processBytes tok defaultWsCfg tokens now initialBoard
          ⟨false, false, [], cd, 0, 0⟩ 0 oobDrawMsg).board = initialBoard ∧
      (processBytes tok defaultWsCfg tokens now initialBoard
          ⟨false, false, [], cd, 0, 0⟩ 0 oobDrawMsg).broadcasts = []) := by
  constructor
  · intro h
    simp [processBytes, processGo, readDrawPayload, readU8, readU16LE, readU32LE,
      sendResultFrame, le32, oobDrawMsg, defaultWsCfg, List.replicate, h]
  · intro h
    have h' : ¬ (now - cd 1 < tok.cooldownMs) := not_lt.mpr h
    simp [processBytes, processGo, readDrawPayload, readU8, readU16LE, readU32LE,
      sendResultFrame, le32, setPixel, WIDTH, HEIGHT, oobDrawMsg, defaultWsCfg,
      List.replicate, h']

/-- Witness for `cooldown_recorded_before_bounds_check`: both branches at
cooldown 1000 ms and t = 10000, with a last-pass time of 9500 (cooldown
active) and of 0 (cooldown passed). -/
theorem cooldown_recorded_before_bounds_check_witness :
    (processBytes ⟨1000, false⟩ defaultWsCfg (fun _ => none) 10000 initialBoard
        ⟨false, false, [], fun _ => 9500, 0, 0⟩ 0 oobDrawMsg).sent =
      [sendResultFrame 9 0xee] ∧
    (processBytes ⟨1000, false⟩ defaultWsCfg (fun _ => none) 10000 initialBoard
        ⟨false, false, [], fun _ => 0, 0, 0⟩ 0 oobDrawMsg).meta.uidCooldown 1 = 10000 :=
  ⟨((cooldown_recorded_before_bounds_check ⟨1000, false⟩ (fun _ => none) 10000
      (fun _ => 9500)).1 (by decide)).1,
   ((cooldown_recorded_before_bounds_check ⟨1000, false⟩ (fun _ => none) 10000
      (fun _ => 0)).2 (by decide)).2.1⟩

/-- C9: with A bidirectional, B read-only and C write-only all open, a
valid draw at (5,5,255,0,0) submitted by A produces exactly one
`DRAW_BROADCAST` frame, fanned out to A and B once each and not to C, and
exactly one `DRAW_RESULT` success frame delivered only to A. -/
theorem broadcast_fanout_scenario :
    (processBytes defaultTokenCfg defaultWsCfg (fun _ => none) 1000000 initialBoard
        (freshMeta false false 0) 0 drawMsgA).broadcasts =
      [drawBroadcastFrame 5 5 255 0 0] ∧
    (processBytes defaultTokenCfg defaultWsCfg (fun _ => none) 1000000 initialBoard
        (freshMeta false false 0) 0 drawMsgA).sent = [sendResultFrame 3 0xef] ∧
    broadcastTo [⟨1, true, false, false⟩, ⟨2, true, true, false⟩, ⟨3, true, false, true⟩]
        (drawBroadcastFrame 5 5 255 0 0) =
      [(1, drawBroadcastFrame 5 5 255 0 0), (2, drawBroadcastFrame 5 5 255 0 0)] ∧
    sendDirect ⟨1, true, false, false⟩ (sendResultFrame 3 0xef) =
      [(1, sendResultFrame 3 0xef)] := by
  decide

/-- C5 counterexample: a single `0xF0` timed-draw frame raises `paintCount`
from 0 to 1 without mutating the raster and without any accepted
`DRAW_REQUEST` (no `DRAW_BROADCAST` frame); the next rate-sample tick then
reports 1, not the number of raster-mutating draws (0). -/
theorem rate_sample_counts_timed_draw_frames :
    (processBytes defaultTokenCfg defaultWsCfg (fun _ => none) 1000000 initialBoard
        (freshMeta false false 0) 0 (0xF0 :: List.replicate 15 0)).paintCount = 1 ∧
    (processBytes defaultTokenCfg defaultWsCfg (fun _ => none) 1000000 initialBoard
        (freshMeta false false 0) 0 (0xF0 :: List.replicate 15 0)).board = initialBoard ∧
    (processBytes defaultTokenCfg defaultWsCfg (fun _ => none) 1000000 initialBoard
        (freshMeta false false 0) 0
        (0xF0 :: List.replicate 15 0)).broadcasts.countP isDrawBroadcast = 0 ∧
    rateSampleTick [⟨1, true, false, false⟩] 1 = ([(1, [0xFE, 1, 0, 0, 0])], 0) := by
  refine ⟨by decide, rfl, by decide, by decide⟩

theorem isDrawBroadcast_timedEchoFrame (id clientTs serverTs x y r g b : Nat) :
    isDrawBroadcast (timedEchoFrame id clientTs serverTs x y r g b) = false := rfl

theorem isTimedEcho_timedEchoFrame (id clientTs serverTs x y r g b : Nat) :
    isTimedEcho (timedEchoFrame id clientTs serverTs x y r g b) = true := rfl

theorem isDrawBroadcast_drawBroadcastFrame (x y r g b : Nat) :
    isDrawBroadcast (drawBroadcastFrame x y r g b) = true := rfl

theorem isTimedEcho_drawBroadcastFrame (x y r g b : Nat) :
    isTimedEcho (drawBroadcastFrame x y r g b) = false := rfl

/-- C5 amended: the rate-sample counter equals the number of frames handed
to the broadcast loop during the interval — accepted raster-mutating draws
(`DRAW_BROADCAST`, 0xfa) plus processed timed-draw echoes (0xF0) — and the
tick broadcasts `0xFE` + count(4, LE) to every open non-write-only client,
then resets the counter to zero. -/
theorem paintCount_counts_draws_and_timed_echoes (tok : TokenCfg) (ws : WsCfg)
    (tokens : Nat → Option String) (now : Int) (fuel : Nat) (board : Nat → Nat)
    (meta : ConnMeta) (pc : Nat) (bytes : List Nat) (clients : List Client) (n : Nat) :
    (processGo tok ws tokens now fuel board meta pc bytes).paintCount =
      pc + (processGo tok ws tokens now fuel board meta pc
              bytes).broadcasts.countP isDrawBroadcast +
        (processGo tok ws tokens now fuel board meta pc
          bytes).broadcasts.countP isTimedEcho ∧
    rateSampleTick clients n = (broadcastTo clients (0xFE :: le32 n), 0) := by
  refine ⟨?_, rfl⟩
  induction fuel generalizing board meta pc bytes with
  | zero => simp [processGo]
  | succ fuel ih =>
    cases bytes with
    | nil => simp [processGo]
    | cons t rest =>
      simp only [processGo]
      by_cases h1 : t = 0xfb
      · rw [if_pos h1]
        exact ih board { meta with lastPong := now } pc rest
      · rw [if_neg h1]
        by_cases h2 : t = 0xF0
        · rw [if_pos h2]
          by_cases h3 : rest.length < 4 + 4 + 2 + 2 + 1 + 1 + 1
          · rw [if_pos h3]
            simp
          · rw [if_neg h3]
            rcases e : readTimedDrawPayload rest with _ | ⟨id, clientTs, x, y, r, g, b⟩
            · simp
            · dsimp only
              rw [ih]
              simp [List.countP_cons, isDrawBroadcast_timedEchoFrame,
                isTimedEcho_timedEchoFrame]
              omega
        · rw [if_neg h2]
          by_cases h4 : t = 0xfe
          · simp only [ne_eq, h4, not_true_eq_false, Bool.false_eq_true, if_false]
            by_cases h5 : ws.packetsPerSecond <
                (((meta.packets.filter (fun tm => now - tm < 1000)).filter
                  (fun tm => now - tm < 1000)).length : Nat)
            · rw [if_pos h5]
              simp
            · rw [if_neg h5]
              by_cases h6 : rest.length < 29
              · rw [if_pos h6]
                simp
              · rw [if_neg h6]
                rcases e : readDrawPayload rest with _ | ⟨x, y, r, g, b, uid, id⟩
                · simp
                · dsimp only
                  split_ifs with h7 h8
                  · rw [ih]
                  · dsimp only
                    rw [ih]
                    simp [List.countP_cons, isDrawBroadcast_drawBroadcastFrame,
                      isTimedEcho_drawBroadcastFrame]
                    omega
                  · dsimp only
                    rw [ih]
          · simp only [ne_eq, h4, not_false_eq_true, if_true]
            simp

/-- C7: a frame whose leading opcode byte is none of 0xfb, 0xF0, 0xfe
makes the handler close the connection immediately with the distinguishing
reason, with no raster mutation, nothing sent or broadcast, and with the
remaining buffered bytes ignored (the result does not depend on `rest`). -/
theorem unknown_opcode_closes_connection (tok : TokenCfg) (ws : WsCfg)
    (tokens : Nat → Option String) (now : Int) (fuel : Nat) (board : Nat → Nat)
    (meta : ConnMeta) (pc : Nat) (t : Nat) (rest : List Nat)
    (h1 : t ≠ 0xfb) (h2 : t ≠ 0xF0) (h3 : t ≠ 0xfe) :
    processGo tok ws tokens now (fuel + 1) board meta pc (t :: rest) =
      ⟨board, meta, pc, [], [],
        some (1002, "Protocol violation: unknown packet type"), false⟩ := by
  simp only [processGo, if_neg h1, if_neg h2, ne_eq, h3, not_false_eq_true, if_true]

/-- Witness for `unknown_opcode_closes_connection` at the unknown opcode
0x42 followed by further buffered bytes. -/
theorem unknown_opcode_closes_connection_witness :
    processBytes defaultTokenCfg defaultWsCfg (fun _ => none) 1000000 initialBoard
        (freshMeta false false 0) 0 [0x42, 1, 2, 3] =
      ⟨initialBoard, freshMeta false false 0, 0, [], [],
        some (1002, "Protocol violation: unknown packet type"), false⟩ :=
  unknown_opcode_closes_connection defaultTokenCfg defaultWsCfg (fun _ => none) 1000000 3
    initialBoard (freshMeta false false 0) 0 0x42 [1, 2, 3]
    (by decide) (by decide) (by decide)

/-- C8 (code-bug evidence): the `DRAW_REQUEST` guard `offset + 29 >
buf.length` under-counts the frame: parsing consumes 30 payload bytes
(x2 + y2 + rgb3 + uid3 + token16 + id4), so a frame with exactly 29
payload bytes passes the guard and the request-id read goes past the end
of the buffer — an uncaught ERR_OUT_OF_RANGE throw (`crashed`), not a
clean close.  A 28-byte payload is closed by the guard; the `0xF0` guard
requires 15 payload bytes (its sum `4+4+2+2+1+1+1`), not 14: a 14-byte
payload is closed, a 15-byte payload is processed.  No raster mutation
occurs in any of these cases. -/
theorem truncated_frame_handling :
    (processBytes defaultTokenCfg defaultWsCfg (fun _ => none) 1000000 initialBoard
        (freshMeta false false 0) 0 (0xfe :: List.replicate 29 0)).crashed = true ∧
    (processBytes defaultTokenCfg defaultWsCfg (fun _ => none) 1000000 initialBoard
        (freshMeta false false 0) 0 (0xfe :: List.replicate 29 0)).closed = none ∧
    (processBytes defaultTokenCfg defaultWsCfg (fun _ => none) 1000000 initialBoard
        (freshMeta false false 0) 0 (0xfe :: List.replicate 29 0)).sent = [] ∧
    (processBytes defaultTokenCfg defaultWsCfg (fun _ => none) 1000000 initialBoard
        (freshMeta false false 0) 0 (0xfe :: List.replicate 29 0)).broadcasts = [] ∧
    (processBytes defaultTokenCfg defaultWsCfg (fun _ => none) 1000000 initialBoard
        (freshMeta false false 0) 0 (0xfe :: List.replicate 29 0)).board = initialBoard ∧
    (processBytes defaultTokenCfg defaultWsCfg (fun _ => none) 1000000 initialBoard
        (freshMeta false false 0) 0 (0xfe :: List.replicate 28 0)).closed =
      some (1002, "Protocol violation: unknown packet type") ∧
    (processBytes defaultTokenCfg defaultWsCfg (fun _ => none) 1000000 initialBoard
        (freshMeta false false 0) 0 (0xF0 :: List.replicate 14 0)).closed =
      some (1002, "Protocol violation: 0xF0 packet too short") ∧
    (processBytes defaultTokenCfg defaultWsCfg (fun _ => none) 1000000 initialBoard
        (freshMeta false false 0) 0 (0xF0 :: List.replicate 15 0)).closed = none ∧
    (processBytes defaultTokenCfg defaultWsCfg (fun _ => none) 1000000 initialBoard
        (freshMeta false false 0) 0 (0xF0 :: List.replicate 14 0)).board = initialBoard := by
  refine ⟨by decide, by decide, by decide, by decide, rfl, by decide, by decide, by decide, rfl⟩

/-- C10: inbound frame handling never depends on the connection's
read-only flag: processing any message with the flag set produces exactly
the same board, sent frames, broadcast frames, close, crash, paint count
and mutable metadata as with the flag clear (only the flag itself is
carried through), so a read-only connection's `DRAW_REQUEST` is processed
identically to a bidirectional one. -/
theorem processGo_ignores_readonly_flag (tok : TokenCfg) (ws : WsCfg)
    (tokens : Nat → Option String) (now : Int) (fuel : Nat) (board : Nat → Nat)
    (wo : Bool) (pk : List Int) (cd : Nat → Int) (lpo lpi : Int) (pc : Nat)
    (bytes : List Nat) (b1 b2 : Bool) :
    processGo tok ws tokens now fuel board ⟨b1, wo, pk, cd, lpo, lpi⟩ pc bytes =
      withReadonlyFlag b1
        (processGo tok ws tokens now fuel board ⟨b2, wo, pk, cd, lpo, lpi⟩ pc bytes) := by
  induction fuel generalizing board pk cd lpo lpi pc bytes with
  | zero => rfl
  | succ fuel ih =>
    cases bytes with
    | nil => rfl
    | cons t rest =>
      show processGo tok ws tokens now (fuel + 1) board
        ⟨b1, wo, pk, cd, lpo, lpi⟩ pc (t :: rest) = _
      by_cases h1 : t = 0xfb
      · subst h1
        show processGo tok ws tokens now fuel board ⟨b1, wo, pk, cd, now, lpi⟩ pc rest = _
        rw [ih]
        rfl
      · by_cases h2 : t = 0xF0
        · subst h2
          simp only [processGo, if_neg h1, reduceIte]
          by_cases h3 : rest.length < 4 + 4 + 2 + 2 + 1 + 1 + 1
          · rw [if_pos h3, if_pos h3]
            rfl
          · rw [if_neg h3, if_neg h3]
            rcases e : readTimedDrawPayload rest with _ | ⟨id, clientTs, x, y, r, g, b⟩
            · rfl
            · dsimp only
              rw [ih]
              rfl
        · by_cases h4 : t = 0xfe
          · subst h4
            simp only [processGo, if_neg h1, if_neg h2, reduceIte, ne_eq, not_true_eq_false,
              Bool.false_eq_true, if_false]
            by_cases h5 : ws.packetsPerSecond <
                (((pk.filter (fun tm => now - tm < 1000)).filter
                  (fun tm => now - tm < 1000)).length : Nat)
            · rw [if_pos h5, if_pos h5]
              rfl
            · rw [if_neg h5, if_neg h5]
              by_cases h6 : rest.length < 29
              · rw [if_pos h6, if_pos h6]
                rfl
              · rw [if_neg h6, if_neg h6]
                rcases e : readDrawPayload rest with _ | ⟨x, y, r, g, b, uid, id⟩
                · rfl
                · dsimp only
                  by_cases h7 : now - cd uid < tok.cooldownMs
                  · rw [if_pos h7, if_pos h7]
                    rw [ih]
                    rfl
                  · rw [if_neg h7, if_neg h7]
                    by_cases h8 : (setPixel board (x : Int) (y : Int) r g b).2 = true
                    · rw [if_pos h8, if_pos h8]
                      rw [ih]
                      rfl
                    · rw [if_neg h8, if_neg h8]
                      rw [ih]
                      rfl
          · simp only [processGo, if_neg h1, if_neg h2, ne_eq, h4, not_false_eq_true, if_true]
            rfl

end PaintBoard
